import Mathlib

/-!
# Shallow embedding of `cplotgibb.h` (ekgibbons/cplotgibb)

This file embeds the figure-building library `src/cplotgibb.h` and its demo
driver `src/plotter.c` into Lean 4 and proves / refutes the frozen claims
about it.

Modelling conventions:
* C `double` values are modelled as `ℚ` (the claims never depend on
  floating-point rounding, only on comparisons with `0` and on which lines
  are emitted).
* C strings (`char[...]` buffers written with `strcpy`) are modelled as
  `String`; buffer overflow is out of scope of every claim.
* Each `fprintf` call site of the library is modelled as one `Chunk`
  constructor; `Chunk.render` reproduces the exact text the call site
  prints.  The output stream of a save is the `List Chunk` in emission
  order, and the file text is the concatenation of the rendered chunks.
* `malloc` returns uninitialized memory: the fields of `struct plt` that
  `plt_figure` never assigns (`grid`, `width`, `height`) are modelled as
  extra parameters of `plt_figure` holding the indeterminate heap values.
* `exit(1)` terminates the process; it is modelled by the dedicated
  `SaveResult.procExit` constructor (with the call site recorded), which is
  distinct from any value a caller could observe as a recoverable error.
* `fopen` success/failure and the exit codes of the `pdflatex` / `rm`
  subprocesses are inputs of the model, packaged in `SaveEnv`.
-/

/-- One node of the `plot_data` linked list of `cplotgibb.h`.
`points` models the flexible array member `double data[0]` holding
`length` interleaved `(x, y)` pairs; the list of nodes replaces the
`next` pointers (head first, as the C list is walked). -/
structure PlotData where
  length : Nat
  type : String
  color : String
  legend : String
  points : List (ℚ × ℚ)
  deriving Repr, DecidableEq

/-- The `struct plt` figure record.  `grid` is the C `unsigned char`
(modelled as `Nat`), `data` is the series linked list in order
(head of the C list = head of the Lean list). -/
structure Plt where
  filename : String
  type : String
  xmin : ℚ
  xmax : ℚ
  ymin : ℚ
  ymax : ℚ
  grid : Nat
  width : ℚ
  height : ℚ
  xlabel : String
  ylabel : String
  legend_position : String
  data : List PlotData
  deriving Repr, DecidableEq

/-- `plt_figure`: allocates a figure and initializes `filename`, `type`
(to `"standard"`), the three label/legend strings (to `""`), the four
range bounds (to `0`) and `data` (to `NULL`).  The C code never assigns
`grid`, `width` or `height`, so those fields keep whatever indeterminate
values `malloc` returned; the model takes them as the extra parameters
`grid0`, `width0`, `height0`. -/
def plt_figure (filename : String) (grid0 : Nat) (width0 height0 : ℚ) : Plt :=
  { filename := filename
    type := "standard"
    xmin := 0
    xmax := 0
    ymin := 0
    ymax := 0
    grid := grid0
    width := width0
    height := height0
    xlabel := ""
    ylabel := ""
    legend_position := ""
    data := [] }

/-- `plt_axes_type`: `strcpy(figure->type, type)`. -/
def plt_axes_type (figure : Plt) (type : String) : Plt :=
  { figure with type := type }

/-- `plt_xlim`: assigns `xmin` and `xmax`. -/
def plt_xlim (figure : Plt) (xmin xmax : ℚ) : Plt :=
  { figure with xmin := xmin, xmax := xmax }

/-- `plt_ylim`: assigns `ymin` and `ymax`. -/
def plt_ylim (figure : Plt) (ymin ymax : ℚ) : Plt :=
  { figure with ymin := ymin, ymax := ymax }

/-- `plt_dims`: assigns `width` and `height`. -/
def plt_dims (figure : Plt) (width height : ℚ) : Plt :=
  { figure with width := width, height := height }

/-- `plt_grid`: sets `grid` to `1`. -/
def plt_grid (figure : Plt) : Plt :=
  { figure with grid := 1 }

/-- `plt_xlabel`: `strcpy(figure->xlabel, xlabel)`. -/
def plt_xlabel (figure : Plt) (xlabel : String) : Plt :=
  { figure with xlabel := xlabel }

/-- `plt_ylabel`: `strcpy(figure->ylabel, ylabel)`. -/
def plt_ylabel (figure : Plt) (ylabel : String) : Plt :=
  { figure with ylabel := ylabel }

/-- `plt_legend_pos`: `strcpy(figure->legend_position, position)`. -/
def plt_legend_pos (figure : Plt) (position : String) : Plt :=
  { figure with legend_position := position }

/-- The point-copying loop shared by `plt_plot` and `plt_stem`:
`for i < data_len: data[2i] = x[i]; data[2i+1] = y[i]`.  Reading past the
end of a caller array is undefined behaviour in C; the model uses `getD`
with default `0` there (no claim evaluates an out-of-bounds read). -/
def copyPoints (x y : List ℚ) (data_len : Nat) : List (ℚ × ℚ) :=
  (List.range data_len).map fun i => (x.getD i 0, y.getD i 0)

/-- The tail-append shared by `plt_plot` and `plt_stem`: if the list is
empty the new node becomes the head, otherwise the code walks to the last
node and links the new node after it. -/
def appendSeries (figure : Plt) (node : PlotData) : Plt :=
  { figure with data := figure.data ++ [node] }

/-- `plt_plot`: builds a `plot_data` node with `type = "plot"`, copies
`data_len` coordinate pairs from `x` and `y`, and appends the node at the
tail of the figure's series list.  The function performs no validation of
any kind and cannot fail. -/
def plt_plot (figure : Plt) (x y : List ℚ) (data_len : Nat)
    (color legend_entry : String) : Plt :=
  appendSeries figure
    { length := data_len
      type := "plot"
      color := color
      legend := legend_entry
      points := copyPoints x y data_len }

/-- `plt_stem`: identical to `plt_plot` except `type = "stem"`. -/
def plt_stem (figure : Plt) (x y : List ℚ) (data_len : Nat)
    (color legend_entry : String) : Plt :=
  appendSeries figure
    { length := data_len
      type := "stem"
      color := color
      legend := legend_entry
      points := copyPoints x y data_len }

/-- One emitted output unit; each constructor corresponds to exactly one
`fprintf` call site of `cplotgibb.h`, in the text `Chunk.render` gives. -/
inductive Chunk where
  | docClass
  | usePackages
  | pgfplotsCompat
  | beginDocument
  | beginTikz
  | beginAxis
  | openBracket
  | centerBlock
  | xrange (a b : ℚ)
  | yrange (a b : ℚ)
  | gridMajor
  | widthOpt (w : ℚ)
  | heightOpt (h : ℚ)
  | xlabelOpt (s : String)
  | ylabelOpt (s : String)
  | legendPosOpt (s : String)
  | closeBracket
  | addplotHeader
  | colorLine (c : String)
  | lineWidthCoords
  | stemHeader (c : String)
  | coordLine (x y : ℚ)
  | closeCoords
  | legendEntry (s : String)
  | endAxis
  | endTikz
  | endDocument
  deriving Repr, DecidableEq

/-- Fixed-point decimal with six fractional digits, the `%f` conversion
applied to the rational model of the C `double` (nearest value, halves
away from zero, matching the magnitude `printf` prints for exactly
representable inputs). -/
def fmt6 (q : ℚ) : String :=
  let scaled : ℤ := Int.floor (|q| * 1000000 + 1 / 2)
  let ip := scaled / 1000000
  let fp := (scaled % 1000000).toNat
  let fs := toString fp
  (if q < 0 then "-" else "") ++ toString ip ++ "." ++
    String.mk (List.replicate (6 - fs.length) '0') ++ fs

/-- The exact text each `fprintf` site prints (format string with the
arguments substituted); `\x7b`/`\x7d` denote literal braces. -/
def Chunk.render : Chunk → String
  | .docClass => "\\documentclass\x7bstandalone\x7d\n"
  | .usePackages => "\\usepackage\x7bfilecontents,pgfplots,tikz\x7d\n"
  | .pgfplotsCompat => "\\pgfplotsset\x7bcompat=1.18\x7d\n"
  | .beginDocument => "\\begin\x7bdocument\x7d\n"
  | .beginTikz => "\\begin\x7btikzpicture\x7d\n"
  | .beginAxis => "\\begin\x7baxis\x7d\n"
  | .openBracket => "[\n"
  | .centerBlock =>
      "axis lines=center,\n" ++
      "axis x line = middle,\n" ++
      "every axis x label/.style=\x7b\n" ++
      "at=\x7b(ticklabel* cs:1.0)\x7d,\n" ++
      "anchor=west,\n" ++
      "\x7d,\n" ++
      "axis y line = left,\n" ++
      "every axis y label/.style=\x7b\n" ++
      "at=\x7b(ticklabel* cs:1.0)\x7d,\n" ++
      "anchor=south,\n" ++
      "\x7d,"
  | .xrange a b => "xmin = " ++ fmt6 a ++ ", xmax = " ++ fmt6 b ++ ",\n"
  | .yrange a b => "ymin = " ++ fmt6 a ++ ", ymax = " ++ fmt6 b ++ ",\n"
  | .gridMajor => "grid=major,\n"
  | .widthOpt w => "width=" ++ fmt6 w ++ " cm,\n"
  | .heightOpt h => "height=" ++ fmt6 h ++ " cm,\n"
  | .xlabelOpt s => "xlabel=" ++ s ++ ",\n"
  | .ylabelOpt s => "ylabel=" ++ s ++ ",\n"
  | .legendPosOpt s => "legend pos=" ++ s ++ ",\n"
  | .closeBracket => "]\n"
  | .addplotHeader => "\\addplot [\n"
  | .colorLine c => "color=" ++ c ++ ",\n"
  | .lineWidthCoords => "line width=1pt] coordinates \x7b\n"
  | .stemHeader c =>
      "\\addplot +[ycomb, " ++ c ++
      ", thick, mark options=\x7bfill\x7d] coordinates \x7b\n"
  | .coordLine x y => "    (" ++ fmt6 x ++ "," ++ fmt6 y ++ ")\n"
  | .closeCoords => "\x7d;\n"
  | .legendEntry s => "\\addlegendentry\x7b" ++ s ++ "\x7d\n"
  | .endAxis => "\\end\x7baxis\x7d\n"
  | .endTikz => "\\end\x7btikzpicture\x7d\n"
  | .endDocument => "\\end\x7bdocument\x7d\n"

/-- `add_plot` (`type == "plot"`): `\addplot [` header, the `color=...`
line only when `color` is nonempty, the `line width=1pt] coordinates {`
line, one coordinate line per `i < length`, the closing `};`, and the
legend-entry line only when `legend` is nonempty. -/
def add_plot (d : PlotData) : List Chunk :=
  [Chunk.addplotHeader] ++
  (if d.color ≠ "" then [Chunk.colorLine d.color] else []) ++
  [Chunk.lineWidthCoords] ++
  ((List.range d.length).map fun i =>
    Chunk.coordLine (d.points.getD i (0, 0)).1 (d.points.getD i (0, 0)).2) ++
  [Chunk.closeCoords] ++
  (if d.legend ≠ "" then [Chunk.legendEntry d.legend] else [])

/-- `add_stem` (`type == "stem"`): the `\addplot +[ycomb, %s, ...` header
always interpolates the color (even when empty), then the coordinate
lines, `};`, and the legend-entry line only when `legend` is nonempty. -/
def add_stem (d : PlotData) : List Chunk :=
  [Chunk.stemHeader d.color] ++
  ((List.range d.length).map fun i =>
    Chunk.coordLine (d.points.getD i (0, 0)).1 (d.points.getD i (0, 0)).2) ++
  [Chunk.closeCoords] ++
  (if d.legend ≠ "" then [Chunk.legendEntry d.legend] else [])

/-- The `exit(1)` call sites of the library, recorded when the model hits
one (the C process terminates there). -/
inductive ExitSite where
  | badPlotType (t : String)
  | badAxisType (t : String)
  | openTexFailed (path : String)
  | latexFailed
  | cleanupFailed
  deriving Repr, DecidableEq

/-- `write_data`: walks the series list from the head; `"plot"` nodes go
through `add_plot`, `"stem"` nodes through `add_stem`, and any other type
prints an error and calls `exit(1)`. -/
def write_data : List PlotData → Except ExitSite (List Chunk)
  | [] => .ok []
  | d :: rest =>
      if d.type = "plot" then
        match write_data rest with
        | .ok tail => .ok (add_plot d ++ tail)
        | .error e => .error e
      else if d.type = "stem" then
        match write_data rest with
        | .ok tail => .ok (add_stem d ++ tail)
        | .error e => .error e
      else .error (.badPlotType d.type)

/-- The axis-option lines of `plt_save_fig`, in the order of the source:
x-range when `xmin ≠ 0 ∨ xmax ≠ 0`, y-range when `ymin ≠ 0 ∨ ymax ≠ 0`,
`grid=major` when `grid == 1`, width when `width ≠ 0`, height when
`height ≠ 0`, then the three string options when nonempty. -/
def axisOptions (figure : Plt) : List Chunk :=
  (if figure.xmin ≠ 0 ∨ figure.xmax ≠ 0
    then [Chunk.xrange figure.xmin figure.xmax] else []) ++
  (if figure.ymin ≠ 0 ∨ figure.ymax ≠ 0
    then [Chunk.yrange figure.ymin figure.ymax] else []) ++
  (if figure.grid = 1 then [Chunk.gridMajor] else []) ++
  (if figure.width ≠ 0 then [Chunk.widthOpt figure.width] else []) ++
  (if figure.height ≠ 0 then [Chunk.heightOpt figure.height] else []) ++
  (if figure.xlabel ≠ "" then [Chunk.xlabelOpt figure.xlabel] else []) ++
  (if figure.ylabel ≠ "" then [Chunk.ylabelOpt figure.ylabel] else []) ++
  (if figure.legend_position ≠ ""
    then [Chunk.legendPosOpt figure.legend_position] else [])

/-- The axis-style block of `plt_save_fig`: the fixed centered block for
`"center"`, nothing for `"standard"`, and `exit(1)` otherwise. -/
def axisStyleBlock (figure : Plt) : Except ExitSite (List Chunk) :=
  if figure.type = "center" then .ok [Chunk.centerBlock]
  else if figure.type = "standard" then .ok []
  else .error (.badAxisType figure.type)

/-- Everything `plt_save_fig` prints between (and including)
`\begin{tikzpicture}` and `\end{tikzpicture}`: the figure markup proper,
common to both output modes. -/
def figureBody (figure : Plt) : Except ExitSite (List Chunk) :=
  match axisStyleBlock figure with
  | .error e => .error e
  | .ok style =>
      match write_data figure.data with
      | .error e => .error e
      | .ok plots =>
          .ok ([Chunk.beginTikz, Chunk.beginAxis, Chunk.openBracket] ++
               style ++ axisOptions figure ++ [Chunk.closeBracket] ++
               plots ++ [Chunk.endAxis, Chunk.endTikz])

/-- `strrchr(s, '.')`, splitting the character list at the LAST dot:
`some (before, fromDot)` where `fromDot` starts with the last `'.'`,
`none` when the string has no dot. -/
def splitLastDot : List Char → Option (List Char × List Char)
  | [] => none
  | c :: cs =>
      match splitLastDot cs with
      | some (p, e) => some (c :: p, e)
      | none => if c = '.' then some ([], c :: cs) else none

/-- The mode test of `plt_save_fig` on a character list:
`ext != NULL && (strcmp(ext, ".eps") == 0 || strcmp(ext, ".pdf") == 0)`
where `ext = strrchr(filename, '.')`. -/
def isCompiledChars (l : List Char) : Bool :=
  match splitLastDot l with
  | none => false
  | some (_, e) => e = ".eps".toList || e = ".pdf".toList

/-- The mode test of `plt_save_fig` on the target filename. -/
def isCompiledTarget (filename : String) : Bool :=
  isCompiledChars filename.toList

/-- The intermediate-file name of CompiledMode:
`snprintf(filename_tex, ..., "%s.tex", filename_no_ext)` where
`filename_no_ext` is the filename up to (excluding) the last dot, or the
whole filename when there is no dot. -/
def texName (filename : String) : String :=
  match splitLastDot filename.toList with
  | none => filename ++ ".tex"
  | some (p, _) => String.mk p ++ ".tex"

/-- The environment a save runs in: which paths `fopen(..., "w")` can
open, and the exit codes of the two `system` invocations of CompiledMode
(`pdflatex` on the intermediate file, then `rm` of the artifacts). -/
structure SaveEnv where
  canOpen : String → Bool
  latexExit : Int
  rmExit : Int

/-- The observable outcome of `plt_save_fig`.
`rawOk f cs`: RawMode opened file `f` and wrote the chunks `cs`.
`rawNullHandle f cs`: RawMode `fopen(f, "w")` returned `NULL`; the code
performs no check and passes the null handle to every following
`fprintf` (undefined behaviour in C) — the chunks it attempts to write
are recorded.  `compiledOk tex cs`: CompiledMode wrote `cs` to the
intermediate file `tex`, compiled it and removed the artifacts.
`procExit site code`: the process terminated via `exit(code)` at `site`;
no value is returned to the caller. -/
inductive SaveResult where
  | rawOk (file : String) (chunks : List Chunk)
  | rawNullHandle (file : String) (chunks : List Chunk)
  | compiledOk (texFile : String) (chunks : List Chunk)
  | procExit (site : ExitSite) (code : Nat)
  deriving Repr, DecidableEq

/-- `plt_save_fig`: selects the mode from the filename's last-dot
extension; CompiledMode opens the derived `.tex` file (exiting on
failure), writes the standalone preamble, the figure body and
`\end{document}`, then runs `pdflatex` and the artifact cleanup, exiting
on a nonzero exit code of either; RawMode opens the target itself
(without checking the handle) and writes the bare figure body. -/
def plt_save_fig (figure : Plt) (env : SaveEnv) : SaveResult :=
  if isCompiledTarget figure.filename then
    let tex := texName figure.filename
    if env.canOpen tex then
      match figureBody figure with
      | .error e => .procExit e 1
      | .ok body =>
          let chunks := [Chunk.docClass, Chunk.usePackages,
                         Chunk.pgfplotsCompat, Chunk.beginDocument] ++
                        body ++ [Chunk.endDocument]
          if env.latexExit ≠ 0 then .procExit .latexFailed 1
          else if env.rmExit ≠ 0 then .procExit .cleanupFailed 1
          else .compiledOk tex chunks
    else .procExit (.openTexFailed tex) 1
  else
    match figureBody figure with
    | .error e => .procExit e 1
    | .ok body =>
        if env.canOpen figure.filename then .rawOk figure.filename body
        else .rawNullHandle figure.filename body

/-- The chunks a save emitted, when the process did not exit. -/
def emittedChunks : SaveResult → Option (List Chunk)
  | .rawOk _ cs => some cs
  | .rawNullHandle _ cs => some cs
  | .compiledOk _ cs => some cs
  | .procExit _ _ => none

/-- A plotting call of the public API (the only two operations that touch
the series list). -/
inductive PlotOp where
  | plot (x y : List ℚ) (data_len : Nat) (color legend : String)
  | stem (x y : List ℚ) (data_len : Nat) (color legend : String)
  deriving Repr

/-- Apply one plotting call to a figure. -/
def applyOp (figure : Plt) : PlotOp → Plt
  | .plot x y n c l => plt_plot figure x y n c l
  | .stem x y n c l => plt_stem figure x y n c l

/-- The `plot_data` node a plotting call creates. -/
def PlotOp.node : PlotOp → PlotData
  | .plot x y n c l =>
      { length := n, type := "plot", color := c, legend := l,
        points := copyPoints x y n }
  | .stem x y n c l =>
      { length := n, type := "stem", color := c, legend := l,
        points := copyPoints x y n }

/-- A figure built through the public API: `plt_figure` (with the
indeterminate heap values of its uninitialized fields) followed by a
sequence of `plt_plot` / `plt_stem` calls. -/
def buildFigure (filename : String) (grid0 : Nat) (width0 height0 : ℚ)
    (ops : List PlotOp) : Plt :=
  ops.foldl applyOp (plt_figure filename grid0 width0 height0)

/-- Is this chunk the opening line of a plot-entry (`\addplot` block)? -/
def isEntryHeader : Chunk → Bool
  | .addplotHeader => true
  | .stemHeader _ => true
  | _ => false

/-- The opening chunk of the plot-entry a series renders to. -/
def PlotData.entryHead (d : PlotData) : Chunk :=
  if d.type = "plot" then Chunk.addplotHeader else Chunk.stemHeader d.color

/-- The plot-entry headers of an output stream, in emission order. -/
def plotEntryHeads (cs : List Chunk) : List Chunk :=
  cs.filter (fun c => isEntryHeader c)

/-- The chunks a single series renders to, by its type dispatch in
`write_data`. -/
def seriesChunks (d : PlotData) : List Chunk :=
  if d.type = "plot" then add_plot d else add_stem d

/-- Is this chunk part of the standalone-document wrapper that only
CompiledMode emits? -/
def isDocWrapper : Chunk → Bool
  | .docClass => true
  | .usePackages => true
  | .pgfplotsCompat => true
  | .beginDocument => true
  | .endDocument => true
  | _ => false

/-- Is this chunk a legend-entry line? -/
def isLegendLine : Chunk → Bool
  | .legendEntry _ => true
  | _ => false

/-- Is this chunk a `color=...,` attribute line? -/
def isColorLine : Chunk → Bool
  | .colorLine _ => true
  | _ => false

/-- The position of an axis-option chunk in the fixed emission order of
`plt_save_fig` (x-range, y-range, grid, width, height, x-label, y-label,
legend-position); chunks that are not axis options rank last. -/
def optSlot : Chunk → Nat
  | .xrange _ _ => 0
  | .yrange _ _ => 1
  | .gridMajor => 2
  | .widthOpt _ => 3
  | .heightOpt _ => 4
  | .xlabelOpt _ => 5
  | .ylabelOpt _ => 6
  | .legendPosOpt _ => 7
  | _ => 8

/-- An environment where every `fopen` succeeds and both subprocesses
exit with code 0. -/
def env0 : SaveEnv :=
  { canOpen := fun _ => true, latexExit := 0, rmExit := 0 }

/-- An environment where no `fopen` succeeds. -/
def envNoOpen : SaveEnv :=
  { canOpen := fun _ => false, latexExit := 0, rmExit := 0 }

/-- `write_data` succeeds on a list of series whose types are all
`"plot"` or `"stem"`, emitting each series' chunks in list order. -/
theorem write_data_ok (l : List PlotData)
    (h : ∀ d ∈ l, d.type = "plot" ∨ d.type = "stem") :
    write_data l = .ok (l.flatMap seriesChunks) := by
  induction l with
  | nil => simp [write_data]
  | cons d rest ih =>
      have hd := h d (List.mem_cons_self d rest)
      have hrest : ∀ x ∈ rest, x.type = "plot" ∨ x.type = "stem" :=
        fun x hx => h x (List.mem_cons_of_mem d hx)
      rcases hd with hd | hd
      · simp [write_data, hd, ih hrest, seriesChunks]
      · have hne : d.type ≠ "plot" := by simp [hd]
        simp [write_data, hd, hne, ih hrest, seriesChunks]

/-- A plotting call appends exactly its node at the tail of the list. -/
theorem applyOp_data (f : Plt) (op : PlotOp) :
    (applyOp f op).data = f.data ++ [op.node] := by
  cases op <;>
    simp [applyOp, plt_plot, plt_stem, appendSeries, PlotOp.node]

/-- A plotting call changes no field of the figure other than `data`. -/
theorem applyOp_config (f : Plt) (op : PlotOp) :
    (applyOp f op).filename = f.filename ∧ (applyOp f op).type = f.type ∧
    (applyOp f op).xmin = f.xmin ∧ (applyOp f op).xmax = f.xmax ∧
    (applyOp f op).ymin = f.ymin ∧ (applyOp f op).ymax = f.ymax ∧
    (applyOp f op).grid = f.grid ∧ (applyOp f op).width = f.width ∧
    (applyOp f op).height = f.height ∧ (applyOp f op).xlabel = f.xlabel ∧
    (applyOp f op).ylabel = f.ylabel ∧
    (applyOp f op).legend_position = f.legend_position := by
  cases op <;>
    simp [applyOp, plt_plot, plt_stem, appendSeries]

/-- The series list of a figure built through the public API is exactly
the nodes of the plotting calls, in call order. -/
theorem buildFigure_data (fn : String) (g : Nat) (w h : ℚ)
    (ops : List PlotOp) :
    (buildFigure fn g w h ops).data = ops.map PlotOp.node := by
  suffices H : ∀ (f : Plt),
      ((ops.foldl applyOp f).data = f.data ++ ops.map PlotOp.node) by
    simpa [buildFigure, plt_figure] using H (plt_figure fn g w h)
  induction ops with
  | nil => intro f; simp
  | cons op rest ih =>
      intro f
      simp [List.foldl_cons, ih, applyOp_data]

/-- Building through the API never touches the configuration fields set
by `plt_figure` (in particular the axis style stays `"standard"`). -/
theorem buildFigure_config (fn : String) (g : Nat) (w h : ℚ)
    (ops : List PlotOp) :
    (buildFigure fn g w h ops).filename = fn ∧
    (buildFigure fn g w h ops).type = "standard" ∧
    (buildFigure fn g w h ops).grid = g := by
  suffices H : ∀ (f : Plt),
      ((ops.foldl applyOp f).filename = f.filename ∧
       (ops.foldl applyOp f).type = f.type ∧
       (ops.foldl applyOp f).grid = f.grid) by
    have := H (plt_figure fn g w h)
    simpa [buildFigure, plt_figure] using this
  induction ops with
  | nil => intro f; exact ⟨rfl, rfl, rfl⟩
  | cons op rest ih =>
      intro f
      obtain ⟨h1, h2, h3⟩ := ih (applyOp f op)
      obtain ⟨g1, g2, _, _, _, _, g7, _⟩ := applyOp_config f op
      exact ⟨h1.trans g1, h2.trans g2, h3.trans g7⟩

/-- The node of a plotting call has type `"plot"` or `"stem"`. -/
theorem PlotOp.node_type (op : PlotOp) :
    op.node.type = "plot" ∨ op.node.type = "stem" := by
  cases op <;> simp [PlotOp.node]

/-- Filtering the entry headers distributes over concatenation. -/
theorem plotEntryHeads_append (a b : List Chunk) :
    plotEntryHeads (a ++ b) = plotEntryHeads a ++ plotEntryHeads b := by
  simp [plotEntryHeads, List.filter_append]

/-- A conditional singleton of a non-header chunk filters to nothing. -/
theorem plotEntryHeads_ite_nil (c : Prop) [Decidable c] (x : Chunk)
    (hx : isEntryHeader x = false) :
    plotEntryHeads (if c then [x] else []) = [] := by
  by_cases h : c <;> simp [plotEntryHeads, h, hx]

/-- The mirror image of `plotEntryHeads_ite_nil`. -/
theorem plotEntryHeads_ite_nil' (c : Prop) [Decidable c] (x : Chunk)
    (hx : isEntryHeader x = false) :
    plotEntryHeads (if c then [] else [x]) = [] := by
  by_cases h : c <;> simp [plotEntryHeads, h, hx]

/-- The axis-option lines contain no plot-entry header. -/
theorem plotEntryHeads_axisOptions (f : Plt) :
    plotEntryHeads (axisOptions f) = [] := by
  simp [axisOptions, plotEntryHeads_append, plotEntryHeads_ite_nil,
    plotEntryHeads_ite_nil', isEntryHeader]

/-- The coordinate lines of a series contain no plot-entry header. -/
theorem plotEntryHeads_coords (n : Nat) (pts : List (ℚ × ℚ)) :
    plotEntryHeads ((List.range n).map fun i =>
      Chunk.coordLine (pts.getD i (0, 0)).1 (pts.getD i (0, 0)).2) = [] := by
  simp only [plotEntryHeads, List.filter_eq_nil_iff]
  intro a ha
  obtain ⟨i, _, rfl⟩ := List.mem_map.mp ha
  simp [isEntryHeader]

/-- A `"plot"` or `"stem"` series renders to exactly one plot-entry,
opened by its header chunk. -/
theorem plotEntryHeads_seriesChunks (d : PlotData)
    (h : d.type = "plot" ∨ d.type = "stem") :
    plotEntryHeads (seriesChunks d) = [d.entryHead] := by
  rcases h with h | h
  · simp [seriesChunks, h, add_plot, PlotData.entryHead,
      plotEntryHeads_append, plotEntryHeads_ite_nil, plotEntryHeads_coords,
      plotEntryHeads, isEntryHeader]
  · have hne : d.type ≠ "plot" := by simp [h]
    simp [seriesChunks, h, hne, add_stem, PlotData.entryHead,
      plotEntryHeads_append, plotEntryHeads_ite_nil, plotEntryHeads_coords,
      plotEntryHeads, isEntryHeader]

/-- Rendering a list of valid series yields their headers in order. -/
theorem plotEntryHeads_flatMap (l : List PlotData)
    (h : ∀ d ∈ l, d.type = "plot" ∨ d.type = "stem") :
    plotEntryHeads (l.flatMap seriesChunks) = l.map PlotData.entryHead := by
  induction l with
  | nil => simp [plotEntryHeads]
  | cons d rest ih =>
      have hd := h d (List.mem_cons_self d rest)
      have hrest : ∀ x ∈ rest, x.type = "plot" ∨ x.type = "stem" :=
        fun x hx => h x (List.mem_cons_of_mem d hx)
      simp [List.flatMap_cons, plotEntryHeads_append,
        plotEntryHeads_seriesChunks d hd, ih hrest]

/-- The figure body of a figure with valid axis style and valid series
types, fully unfolded. -/
theorem figureBody_ok (f : Plt) (hty : f.type = "standard")
    (hdata : ∀ d ∈ f.data, d.type = "plot" ∨ d.type = "stem") :
    figureBody f =
      .ok ([Chunk.beginTikz, Chunk.beginAxis, Chunk.openBracket] ++
           axisOptions f ++ [Chunk.closeBracket] ++
           f.data.flatMap seriesChunks ++ [Chunk.endAxis, Chunk.endTikz]) := by
  have hne : f.type ≠ "center" := by simp [hty]
  simp [figureBody, axisStyleBlock, hty, hne, write_data_ok f.data hdata]

/-- The plot-entry headers of everything a save emits, for a body with
known headers: the document wrapper of CompiledMode adds none. -/
theorem plotEntryHeads_emitted (f : Plt) (env : SaveEnv) (cs body : List Chunk)
    (hbody : figureBody f = .ok body)
    (hcs : emittedChunks (plt_save_fig f env) = some cs) :
    plotEntryHeads cs = plotEntryHeads body := by
  by_cases hc : isCompiledTarget f.filename
  case neg =>
    by_cases hop : env.canOpen f.filename
    · have : cs = body := by
        simp [plt_save_fig, hc, hbody, hop, emittedChunks] at hcs
        exact hcs.symm
      subst this; rfl
    · have : cs = body := by
        simp [plt_save_fig, hc, hbody, hop, emittedChunks] at hcs
        exact hcs.symm
      subst this; rfl
  case pos =>
    by_cases hop : env.canOpen (texName f.filename)
    case neg =>
      simp [plt_save_fig, hc, hop, emittedChunks] at hcs
    case pos =>
      by_cases hl : env.latexExit ≠ 0
      · simp [plt_save_fig, hc, hop, hbody, hl, emittedChunks] at hcs
      · by_cases hr : env.rmExit ≠ 0
        · simp [plt_save_fig, hc, hop, hbody, hl, hr, emittedChunks] at hcs
        · have : cs = [Chunk.docClass, Chunk.usePackages,
                Chunk.pgfplotsCompat, Chunk.beginDocument] ++
                body ++ [Chunk.endDocument] := by
            simp [plt_save_fig, hc, hop, hbody, hl, hr, emittedChunks] at hcs
            exact hcs.symm
          subst this
          simp [plotEntryHeads_append, plotEntryHeads, isEntryHeader]

/-- Claim C9: every figure reachable through the public API (`plt_figure`
followed by any sequence of `plt_plot` / `plt_stem` calls) has only
series of type `"plot"` or `"stem"`, so `write_data` never reaches its
invalid-plot-type `exit(1)` branch on such a figure. -/
theorem claim_C9 (fn : String) (g : Nat) (w h : ℚ) (ops : List PlotOp) :
    ((buildFigure fn g w h ops).data.all
      (fun d => d.type == "plot" || d.type == "stem")) = true ∧
    (write_data (buildFigure fn g w h ops).data).isOk = true := by
  have hdata : ∀ d ∈ (buildFigure fn g w h ops).data,
      d.type = "plot" ∨ d.type = "stem" := by
    rw [buildFigure_data]
    intro d hd
    obtain ⟨op, _, rfl⟩ := List.mem_map.mp hd
    exact PlotOp.node_type op
  constructor
  · rw [List.all_eq_true]
    intro d hd
    rcases hdata d hd with h | h <;> simp [h]
  · rw [write_data_ok _ hdata]
    rfl

/-- Claim C1: a figure built by appending `N` series through `plt_plot` /
`plt_stem` carries exactly the `N` created series nodes in call order
(each append goes to the tail), and whenever `plt_save_fig` emits markup
for it, that markup contains exactly `N` plot-entries whose headers occur
in the same order as the appended series. -/
theorem claim_C1 (fn : String) (g : Nat) (w h : ℚ) (ops : List PlotOp)
    (env : SaveEnv) (cs : List Chunk)
    (hcs : emittedChunks (plt_save_fig (buildFigure fn g w h ops) env)
           = some cs) :
    (buildFigure fn g w h ops).data = ops.map PlotOp.node ∧
    plotEntryHeads cs = (ops.map PlotOp.node).map PlotData.entryHead ∧
    (plotEntryHeads cs).length = ops.length := by
  set F := buildFigure fn g w h ops with hF
  have hdata : ∀ d ∈ F.data, d.type = "plot" ∨ d.type = "stem" := by
    rw [hF, buildFigure_data]
    intro d hd
    obtain ⟨op, _, rfl⟩ := List.mem_map.mp hd
    exact PlotOp.node_type op
  have hty : F.type = "standard" := (buildFigure_config fn g w h ops).2.1
  have hbody := figureBody_ok F hty hdata
  have hheads := plotEntryHeads_emitted F env cs _ hbody hcs
  have hdat : F.data = ops.map PlotOp.node := by rw [hF, buildFigure_data]
  have hmain : plotEntryHeads cs = (ops.map PlotOp.node).map PlotData.entryHead := by
    rw [hheads]
    simp only [plotEntryHeads_append, plotEntryHeads_axisOptions,
      plotEntryHeads_flatMap F.data hdata, hdat]
    have h1 : plotEntryHeads [Chunk.beginTikz, Chunk.beginAxis,
        Chunk.openBracket] = [] := rfl
    have h2 : plotEntryHeads [Chunk.closeBracket] = [] := rfl
    have h3 : plotEntryHeads [Chunk.endAxis, Chunk.endTikz] = [] := rfl
    have hdata' : ∀ d ∈ ops.map PlotOp.node,
        d.type = "plot" ∨ d.type = "stem" := hdat ▸ hdata
    simp [h1, h2, h3, plotEntryHeads_flatMap _ hdata', List.map_map]
  refine ⟨hdat, hmain, ?_⟩
  rw [hmain]
  simp


/-- `strrchr` finds no dot exactly when the string has none. -/
theorem splitLastDot_eq_none (l : List Char) :
    splitLastDot l = none ↔ '.' ∉ l := by
  induction l with
  | nil => simp [splitLastDot]
  | cons c cs ih =>
      cases hsplit : splitLastDot cs with
      | some pe =>
          have hdot : '.' ∈ cs := by
            by_contra hno
            rw [ih.mpr hno] at hsplit
            exact Option.noConfusion hsplit
          simp only [splitLastDot, hsplit]
          simp [hdot]
      | none =>
          have hno : '.' ∉ cs := ih.mp hsplit
          by_cases hc : c = '.'
          · subst hc
            simp only [splitLastDot, hsplit]
            simp
          · simp only [splitLastDot, hsplit]
            simp [hc, hno, Ne.symm hc]

/-- Splitting at the last dot decomposes the list. -/
theorem splitLastDot_eq_some (l p e : List Char)
    (h : splitLastDot l = some (p, e)) : l = p ++ e := by
  induction l generalizing p e with
  | nil => simp [splitLastDot] at h
  | cons c cs ih =>
      cases hsplit : splitLastDot cs with
      | some pe =>
          obtain ⟨p', e'⟩ := pe
          rw [splitLastDot, hsplit] at h
          simp only [Option.some.injEq, Prod.mk.injEq] at h
          obtain ⟨rfl, rfl⟩ := h
          simp [ih p' e' hsplit]
      | none =>
          rw [splitLastDot, hsplit] at h
          by_cases hc : c = '.'
          · subst hc
            simp only [if_pos] at h
            simp only [Option.some.injEq, Prod.mk.injEq] at h
            obtain ⟨rfl, rfl⟩ := h
            simp
          · simp [hc] at h

/-- The last-dot extension test of `plt_save_fig` succeeds exactly when
the filename ends, case-sensitively, in `".eps"` or `".pdf"`. -/
theorem isCompiledChars_iff (l : List Char) :
    isCompiledChars l = true ↔
    (".eps".toList <:+ l ∨ ".pdf".toList <:+ l) := by
  induction l with
  | nil =>
      constructor
      · intro h; simp [isCompiledChars, splitLastDot] at h
      · rintro (h | h) <;> exact absurd (List.suffix_nil.mp h) (by decide)
  | cons c cs ih =>
      cases hsplit : splitLastDot cs with
      | some pe =>
          obtain ⟨p, e⟩ := pe
          have hdot : '.' ∈ cs := by
            by_contra hno
            rw [(splitLastDot_eq_none cs).mpr hno] at hsplit
            exact Option.noConfusion hsplit
          have hstep : isCompiledChars (c :: cs) = isCompiledChars cs := by
            simp only [isCompiledChars, splitLastDot, hsplit]
          rw [hstep, ih]
          constructor
          · rintro (h | h)
            · exact Or.inl (h.trans (List.suffix_cons c cs))
            · exact Or.inr (h.trans (List.suffix_cons c cs))
          · rintro (h | h)
            · rcases List.suffix_cons_iff.mp h with heq | hsuf
              · exfalso
                have heq' : ('.' :: ('e' :: ('p' :: ('s' :: [])))) = c :: cs := heq
                injection heq' with h1 h2
                rw [← h2] at hdot
                exact absurd hdot (by decide)
              · exact Or.inl hsuf
            · rcases List.suffix_cons_iff.mp h with heq | hsuf
              · exfalso
                have heq' : ('.' :: ('p' :: ('d' :: ('f' :: [])))) = c :: cs := heq
                injection heq' with h1 h2
                rw [← h2] at hdot
                exact absurd hdot (by decide)
              · exact Or.inr hsuf
      | none =>
          have hno : '.' ∉ cs := (splitLastDot_eq_none cs).mp hsplit
          by_cases hc : c = '.'
          · subst hc
            have hstep : isCompiledChars ('.' :: cs) =
                (decide (('.' :: cs) = ".eps".toList) ||
                 decide (('.' :: cs) = ".pdf".toList)) := by
              simp only [isCompiledChars, splitLastDot, hsplit, if_pos]
            rw [hstep]
            constructor
            · intro h
              rcases (by simpa using h :
                  '.' :: cs = ".eps".toList ∨ '.' :: cs = ".pdf".toList) with
                heq | heq
              · exact Or.inl (heq ▸ List.suffix_refl _)
              · exact Or.inr (heq ▸ List.suffix_refl _)
            · rintro (h | h)
              · rcases List.suffix_cons_iff.mp h with heq | hsuf
                · simp [← heq]
                · exact absurd (hsuf.subset (by decide)) hno
              · rcases List.suffix_cons_iff.mp h with heq | hsuf
                · simp [← heq]
                · exact absurd (hsuf.subset (by decide)) hno
          · have hstep : isCompiledChars (c :: cs) = false := by
              simp only [isCompiledChars, splitLastDot, hsplit]
              simp [hc]
            rw [hstep]
            simp only [Bool.false_eq_true, false_iff]
            rintro (h | h)
            · rcases List.suffix_cons_iff.mp h with heq | hsuf
              · have heq' : ('.' :: ('e' :: ('p' :: ('s' :: [])))) = c :: cs := heq
                injection heq' with h1 h2
                exact hc h1.symm
              · exact hno (hsuf.subset (by decide))
            · rcases List.suffix_cons_iff.mp h with heq | hsuf
              · have heq' : ('.' :: ('p' :: ('d' :: ('f' :: [])))) = c :: cs := heq
                injection heq' with h1 h2
                exact hc h1.symm
              · exact hno (hsuf.subset (by decide))

/-- In CompiledMode the intermediate file replaces the 4-character
`".eps"`/`".pdf"` suffix with `".tex"`. -/
theorem texName_compiled (s : String) (h : isCompiledTarget s = true) :
    texName s = String.mk (s.toList.take (s.toList.length - 4)) ++ ".tex" := by
  unfold isCompiledTarget isCompiledChars at h
  cases hsplit : splitLastDot s.toList with
  | none => rw [hsplit] at h; simp at h
  | some pe =>
      obtain ⟨p, e⟩ := pe
      rw [hsplit] at h
      have he : e = ".eps".toList ∨ e = ".pdf".toList := by simpa using h
      have hl : s.toList = p ++ e := splitLastDot_eq_some _ _ _ hsplit
      have hel : e.length = 4 := by rcases he with rfl | rfl <;> decide
      have hlen : s.toList.length - 4 = p.length := by
        rw [hl, List.length_append, hel]
        omega
      rw [texName, hsplit, hlen, hl, List.take_left]

/-- A conditional singleton of a chunk the predicate rejects filters to
nothing. -/
theorem filter_ite_sing (p : Chunk → Bool) (c : Prop) [Decidable c]
    (x : Chunk) (hx : p x = false) :
    List.filter p (if c then [x] else []) = [] := by
  split <;> simp [hx]

/-- The mirror image of `filter_ite_sing`. -/
theorem filter_ite_sing' (p : Chunk → Bool) (c : Prop) [Decidable c]
    (x : Chunk) (hx : p x = false) :
    List.filter p (if c then [] else [x]) = [] := by
  split <;> simp [hx]

/-- Coordinate lines never satisfy a predicate that rejects them. -/
theorem filter_coords (p : Chunk → Bool)
    (hp : ∀ x y, p (Chunk.coordLine x y) = false) (n : Nat)
    (pts : List (ℚ × ℚ)) :
    List.filter p ((List.range n).map fun i =>
      Chunk.coordLine (pts.getD i (0, 0)).1 (pts.getD i (0, 0)).2) = [] := by
  rw [List.filter_eq_nil_iff]
  intro a ha
  obtain ⟨i, _, rfl⟩ := List.mem_map.mp ha
  simp [hp]

/-- The axis-option lines contain no document-wrapper chunk. -/
theorem docWrapper_axisOptions (f : Plt) :
    (axisOptions f).filter isDocWrapper = [] := by
  simp [axisOptions, List.filter_append, filter_ite_sing, filter_ite_sing',
    isDocWrapper]

/-- A line plot-entry contains no document-wrapper chunk. -/
theorem docWrapper_add_plot (d : PlotData) :
    (add_plot d).filter isDocWrapper = [] := by
  simp [add_plot, List.filter_append, filter_ite_sing, filter_ite_sing',
    filter_coords isDocWrapper (fun _ _ => rfl), isDocWrapper]

/-- A stem plot-entry contains no document-wrapper chunk. -/
theorem docWrapper_add_stem (d : PlotData) :
    (add_stem d).filter isDocWrapper = [] := by
  simp [add_stem, List.filter_append, filter_ite_sing, filter_ite_sing',
    filter_coords isDocWrapper (fun _ _ => rfl), isDocWrapper]

/-- Whatever `write_data` emits contains no document-wrapper chunk. -/
theorem docWrapper_write_data (l : List PlotData) (res : List Chunk)
    (h : write_data l = .ok res) : res.filter isDocWrapper = [] := by
  induction l generalizing res with
  | nil =>
      simp only [write_data, Except.ok.injEq] at h
      simp [← h]
  | cons d rest ih =>
      rw [write_data] at h
      by_cases h1 : d.type = "plot"
      · rw [if_pos h1] at h
        cases hrec : write_data rest with
        | ok tail =>
            rw [hrec] at h
            simp only [Except.ok.injEq] at h
            rw [← h, List.filter_append, docWrapper_add_plot, ih tail hrec]
            rfl
        | error e => rw [hrec] at h; exact absurd h (by simp)
      · rw [if_neg h1] at h
        by_cases h2 : d.type = "stem"
        · rw [if_pos h2] at h
          cases hrec : write_data rest with
          | ok tail =>
              rw [hrec] at h
              simp only [Except.ok.injEq] at h
              rw [← h, List.filter_append, docWrapper_add_stem, ih tail hrec]
              rfl
          | error e => rw [hrec] at h; exact absurd h (by simp)
        · rw [if_neg h2] at h
          exact absurd h (by simp)

/-- The figure body never contains a document-wrapper chunk. -/
theorem docWrapper_figureBody (f : Plt) (body : List Chunk)
    (h : figureBody f = .ok body) : body.filter isDocWrapper = [] := by
  unfold figureBody at h
  cases hs : axisStyleBlock f with
  | error e => rw [hs] at h; exact absurd h (by simp)
  | ok style =>
      rw [hs] at h
      cases hw : write_data f.data with
      | error e => rw [hw] at h; exact absurd h (by simp)
      | ok plots =>
          rw [hw] at h
          simp only [Except.ok.injEq] at h
          have hstyle : style.filter isDocWrapper = [] := by
            unfold axisStyleBlock at hs
            by_cases h1 : f.type = "center"
            · rw [if_pos h1] at hs
              simp only [Except.ok.injEq] at hs
              simp [← hs, isDocWrapper]
            · rw [if_neg h1] at hs
              by_cases h2 : f.type = "standard"
              · rw [if_pos h2] at hs
                simp only [Except.ok.injEq] at hs
                simp [← hs]
              · rw [if_neg h2] at hs
                exact absurd hs (by simp)
          rw [← h]
          simp [List.filter_append, hstyle, docWrapper_axisOptions,
            docWrapper_write_data f.data plots hw, isDocWrapper]

/-- Claim C4: `plt_save_fig` selects CompiledMode exactly for filenames
ending, case-sensitively, in `".eps"` or `".pdf"`; CompiledMode derives
the intermediate file by replacing that 4-character suffix with `".tex"`;
every other target runs RawMode, which opens the target file itself and
emits the bare figure markup with no document-wrapper chunk. -/
theorem claim_C4 :
    (∀ s : String, isCompiledTarget s = true ↔
      (".eps".toList <:+ s.toList ∨ ".pdf".toList <:+ s.toList)) ∧
    (∀ s : String, isCompiledTarget s = true →
      texName s = String.mk (s.toList.take (s.toList.length - 4)) ++ ".tex") ∧
    (∀ (f : Plt) (env : SaveEnv) (cs : List Chunk),
      isCompiledTarget f.filename = false →
      emittedChunks (plt_save_fig f env) = some cs →
      (plt_save_fig f env = .rawOk f.filename cs ∨
       plt_save_fig f env = .rawNullHandle f.filename cs) ∧
      cs.filter isDocWrapper = []) := by
  refine ⟨fun s => isCompiledChars_iff s.toList, texName_compiled, ?_⟩
  intro f env cs hraw hcs
  cases hb : figureBody f with
  | error e => simp [plt_save_fig, hraw, hb, emittedChunks] at hcs
  | ok body =>
      by_cases hop : env.canOpen f.filename
      · have heq : plt_save_fig f env = .rawOk f.filename body := by
          simp [plt_save_fig, hraw, hb, hop]
        have hbc : body = cs := by
          rw [heq] at hcs
          simpa [emittedChunks] using hcs
        subst hbc
        exact ⟨Or.inl heq, docWrapper_figureBody f body hb⟩
      · have heq : plt_save_fig f env = .rawNullHandle f.filename body := by
          simp [plt_save_fig, hraw, hb, hop]
        have hbc : body = cs := by
          rw [heq] at hcs
          simpa [emittedChunks] using hcs
        subst hbc
        exact ⟨Or.inr heq, docWrapper_figureBody f body hb⟩

/-- Witness for C4 at concrete inputs: `"fig.pdf"` is a compiled target
with intermediate file `"fig.tex"`, case variants are not, and a raw
save of a fresh figure targeting `"fig.txt"` opens that file and writes
the bare markup. -/
theorem claim_C4_witness :
    isCompiledTarget "fig.pdf" = true ∧
    isCompiledTarget "fig.PDF" = false ∧
    isCompiledTarget "figpdf" = false ∧
    texName "fig.pdf" = "fig.tex" ∧
    (plt_save_fig (plt_figure "fig.txt" 0 0 0) env0 =
       SaveResult.rawOk "fig.txt"
         [Chunk.beginTikz, Chunk.beginAxis, Chunk.openBracket,
          Chunk.closeBracket, Chunk.endAxis, Chunk.endTikz] ∨
     plt_save_fig (plt_figure "fig.txt" 0 0 0) env0 =
       SaveResult.rawNullHandle "fig.txt"
         [Chunk.beginTikz, Chunk.beginAxis, Chunk.openBracket,
          Chunk.closeBracket, Chunk.endAxis, Chunk.endTikz]) := by
  obtain ⟨h1, h2, h3⟩ := claim_C4
  refine ⟨(h1 "fig.pdf").mpr (Or.inr (by decide)), by decide, by decide,
    ?_, ?_⟩
  · exact (h2 "fig.pdf" (by decide)).trans (by decide)
  · exact (h3 (plt_figure "fig.txt" 0 0 0) env0
      [Chunk.beginTikz, Chunk.beginAxis, Chunk.openBracket,
       Chunk.closeBracket, Chunk.endAxis, Chunk.endTikz]
      (by decide) (by decide)).1

/-- Witness for C1 at a concrete figure: two appended series (one line,
one stem) yield exactly their two nodes in order and exactly two
plot-entry headers in the emitted markup, in append order. -/
theorem claim_C1_witness :
    (buildFigure "o.txt" 0 0 0
       [PlotOp.plot [1] [2] 1 "teal" "L",
        PlotOp.stem [3] [4] 1 "" ""]).data =
      ([PlotOp.plot [1] [2] 1 "teal" "L",
        PlotOp.stem [3] [4] 1 "" ""]).map PlotOp.node ∧
    plotEntryHeads
        [Chunk.beginTikz, Chunk.beginAxis, Chunk.openBracket,
         Chunk.closeBracket, Chunk.addplotHeader, Chunk.colorLine "teal",
         Chunk.lineWidthCoords, Chunk.coordLine 1 2, Chunk.closeCoords,
         Chunk.legendEntry "L", Chunk.stemHeader "", Chunk.coordLine 3 4,
         Chunk.closeCoords, Chunk.endAxis, Chunk.endTikz] =
      (([PlotOp.plot [1] [2] 1 "teal" "L",
         PlotOp.stem [3] [4] 1 "" ""]).map PlotOp.node).map
        PlotData.entryHead ∧
    (plotEntryHeads
        [Chunk.beginTikz, Chunk.beginAxis, Chunk.openBracket,
         Chunk.closeBracket, Chunk.addplotHeader, Chunk.colorLine "teal",
         Chunk.lineWidthCoords, Chunk.coordLine 1 2, Chunk.closeCoords,
         Chunk.legendEntry "L", Chunk.stemHeader "", Chunk.coordLine 3 4,
         Chunk.closeCoords, Chunk.endAxis, Chunk.endTikz]).length =
      ([PlotOp.plot [1] [2] 1 "teal" "L",
        PlotOp.stem [3] [4] 1 "" ""]).length :=
  claim_C1 "o.txt" 0 0 0
    [PlotOp.plot [1] [2] 1 "teal" "L", PlotOp.stem [3] [4] 1 "" ""]
    env0
    [Chunk.beginTikz, Chunk.beginAxis, Chunk.openBracket,
     Chunk.closeBracket, Chunk.addplotHeader, Chunk.colorLine "teal",
     Chunk.lineWidthCoords, Chunk.coordLine 1 2, Chunk.closeCoords,
     Chunk.legendEntry "L", Chunk.stemHeader "", Chunk.coordLine 3 4,
     Chunk.closeCoords, Chunk.endAxis, Chunk.endTikz]
    (by decide)

/-- Claim C2 is violated by the code: `plt_plot` takes a single
`data_len` and performs no length validation, so calling it with
coordinate arrays of different underlying lengths (x has 2 entries, y
has 1, `data_len` 1) silently truncates, appends a series node built
from the truncated data, and returns normally — the series collection IS
mutated and the function's return carries no failure of any kind. -/
theorem claim_C2_counterexample :
    (plt_plot (plt_figure "out.txt" 0 0 0) [5, 6] [7] 1 "teal" "lbl").data =
      [{ length := 1, type := "plot", color := "teal", legend := "lbl",
         points := [(5, 7)] }] := by decide

/-- Claim C3 is violated by the code: `plt_figure` never assigns `grid`,
`width` or `height` (the `malloc` memory stays indeterminate — here the
heap values 1, 5, 7), so a figure saved immediately after creation can
emit grid, width and height option lines even though the documented
default state would emit none. -/
theorem claim_C3_counterexample :
    (plt_figure "out.txt" 1 5 7).grid = 1 ∧
    (plt_figure "out.txt" 1 5 7).width = 5 ∧
    (plt_figure "out.txt" 1 5 7).height = 7 ∧
    axisOptions (plt_figure "out.txt" 1 5 7) =
      [Chunk.gridMajor, Chunk.widthOpt 5, Chunk.heightOpt 7] := by decide

/-- Claim C5 is violated by the code: saving a figure whose axis type
was set to an unrecognized value terminates the whole process via
`exit(1)` (the `procExit` outcome), instead of returning a recoverable
invalid-argument failure to the caller. -/
theorem claim_C5_counterexample :
    plt_save_fig (plt_axes_type (plt_figure "out.txt" 0 0 0) "oblique")
        env0 =
      SaveResult.procExit (ExitSite.badAxisType "oblique") 1 := by decide

/-- Claim C8 is violated by the code: in RawMode the result of
`fopen(figure->filename, "w")` is never checked, so an unopenable target
makes every following `fprintf` write through the NULL handle (undefined
behaviour, modelled by `rawNullHandle`) with no error surfaced; in
CompiledMode an unopenable intermediate file terminates the process via
`exit(1)` instead of surfacing a ResourceError to the caller. -/
theorem claim_C8_counterexample :
    plt_save_fig (plt_figure "out.txt" 0 0 0) envNoOpen =
      SaveResult.rawNullHandle "out.txt"
        [Chunk.beginTikz, Chunk.beginAxis, Chunk.openBracket,
         Chunk.closeBracket, Chunk.endAxis, Chunk.endTikz] ∧
    plt_save_fig (plt_figure "out.pdf" 0 0 0) envNoOpen =
      SaveResult.procExit (ExitSite.openTexFailed "out.tex") 1 := by decide

/-- Claim C10: each configuration setter assigns exactly its own
field(s) and leaves every other field — including the series list —
unchanged. -/
theorem claim_C10 (f : Plt) (a b c d w h : ℚ) (t xl yl lp : String) :
    ((plt_xlim f a b).xmin = a ∧ (plt_xlim f a b).xmax = b ∧
     (plt_xlim f a b).filename = f.filename ∧
     (plt_xlim f a b).type = f.type ∧
     (plt_xlim f a b).ymin = f.ymin ∧ (plt_xlim f a b).ymax = f.ymax ∧
     (plt_xlim f a b).grid = f.grid ∧ (plt_xlim f a b).width = f.width ∧
     (plt_xlim f a b).height = f.height ∧
     (plt_xlim f a b).xlabel = f.xlabel ∧
     (plt_xlim f a b).ylabel = f.ylabel ∧
     (plt_xlim f a b).legend_position = f.legend_position ∧
     (plt_xlim f a b).data = f.data) ∧
    ((plt_ylim f c d).ymin = c ∧ (plt_ylim f c d).ymax = d ∧
     (plt_ylim f c d).filename = f.filename ∧
     (plt_ylim f c d).type = f.type ∧
     (plt_ylim f c d).xmin = f.xmin ∧ (plt_ylim f c d).xmax = f.xmax ∧
     (plt_ylim f c d).grid = f.grid ∧ (plt_ylim f c d).width = f.width ∧
     (plt_ylim f c d).height = f.height ∧
     (plt_ylim f c d).xlabel = f.xlabel ∧
     (plt_ylim f c d).ylabel = f.ylabel ∧
     (plt_ylim f c d).legend_position = f.legend_position ∧
     (plt_ylim f c d).data = f.data) ∧
    ((plt_dims f w h).width = w ∧ (plt_dims f w h).height = h ∧
     (plt_dims f w h).filename = f.filename ∧
     (plt_dims f w h).type = f.type ∧
     (plt_dims f w h).xmin = f.xmin ∧ (plt_dims f w h).xmax = f.xmax ∧
     (plt_dims f w h).ymin = f.ymin ∧ (plt_dims f w h).ymax = f.ymax ∧
     (plt_dims f w h).grid = f.grid ∧
     (plt_dims f w h).xlabel = f.xlabel ∧
     (plt_dims f w h).ylabel = f.ylabel ∧
     (plt_dims f w h).legend_position = f.legend_position ∧
     (plt_dims f w h).data = f.data) ∧
    ((plt_grid f).grid = 1 ∧
     (plt_grid f).filename = f.filename ∧ (plt_grid f).type = f.type ∧
     (plt_grid f).xmin = f.xmin ∧ (plt_grid f).xmax = f.xmax ∧
     (plt_grid f).ymin = f.ymin ∧ (plt_grid f).ymax = f.ymax ∧
     (plt_grid f).width = f.width ∧ (plt_grid f).height = f.height ∧
     (plt_grid f).xlabel = f.xlabel ∧ (plt_grid f).ylabel = f.ylabel ∧
     (plt_grid f).legend_position = f.legend_position ∧
     (plt_grid f).data = f.data) ∧
    ((plt_xlabel f xl).xlabel = xl ∧
     (plt_xlabel f xl).filename = f.filename ∧
     (plt_xlabel f xl).type = f.type ∧
     (plt_xlabel f xl).xmin = f.xmin ∧ (plt_xlabel f xl).xmax = f.xmax ∧
     (plt_xlabel f xl).ymin = f.ymin ∧ (plt_xlabel f xl).ymax = f.ymax ∧
     (plt_xlabel f xl).grid = f.grid ∧
     (plt_xlabel f xl).width = f.width ∧
     (plt_xlabel f xl).height = f.height ∧
     (plt_xlabel f xl).ylabel = f.ylabel ∧
     (plt_xlabel f xl).legend_position = f.legend_position ∧
     (plt_xlabel f xl).data = f.data) ∧
    ((plt_ylabel f yl).ylabel = yl ∧
     (plt_ylabel f yl).filename = f.filename ∧
     (plt_ylabel f yl).type = f.type ∧
     (plt_ylabel f yl).xmin = f.xmin ∧ (plt_ylabel f yl).xmax = f.xmax ∧
     (plt_ylabel f yl).ymin = f.ymin ∧ (plt_ylabel f yl).ymax = f.ymax ∧
     (plt_ylabel f yl).grid = f.grid ∧
     (plt_ylabel f yl).width = f.width ∧
     (plt_ylabel f yl).height = f.height ∧
     (plt_ylabel f yl).xlabel = f.xlabel ∧
     (plt_ylabel f yl).legend_position = f.legend_position ∧
     (plt_ylabel f yl).data = f.data) ∧
    ((plt_legend_pos f lp).legend_position = lp ∧
     (plt_legend_pos f lp).filename = f.filename ∧
     (plt_legend_pos f lp).type = f.type ∧
     (plt_legend_pos f lp).xmin = f.xmin ∧
     (plt_legend_pos f lp).xmax = f.xmax ∧
     (plt_legend_pos f lp).ymin = f.ymin ∧
     (plt_legend_pos f lp).ymax = f.ymax ∧
     (plt_legend_pos f lp).grid = f.grid ∧
     (plt_legend_pos f lp).width = f.width ∧
     (plt_legend_pos f lp).height = f.height ∧
     (plt_legend_pos f lp).xlabel = f.xlabel ∧
     (plt_legend_pos f lp).ylabel = f.ylabel ∧
     (plt_legend_pos f lp).data = f.data) ∧
    ((plt_axes_type f t).type = t ∧
     (plt_axes_type f t).filename = f.filename ∧
     (plt_axes_type f t).xmin = f.xmin ∧
     (plt_axes_type f t).xmax = f.xmax ∧
     (plt_axes_type f t).ymin = f.ymin ∧
     (plt_axes_type f t).ymax = f.ymax ∧
     (plt_axes_type f t).grid = f.grid ∧
     (plt_axes_type f t).width = f.width ∧
     (plt_axes_type f t).height = f.height ∧
     (plt_axes_type f t).xlabel = f.xlabel ∧
     (plt_axes_type f t).ylabel = f.ylabel ∧
     (plt_axes_type f t).legend_position = f.legend_position ∧
     (plt_axes_type f t).data = f.data) := by
  repeat' apply And.intro
  all_goals rfl

/-- `countP` of a conditional singleton. -/
theorem countP_ite_sing (p : Chunk → Bool) (c : Prop) [Decidable c]
    (x : Chunk) :
    List.countP p (if c then [x] else []) =
      if c then (if p x then 1 else 0) else 0 := by
  split <;> simp [List.countP_cons]

/-- The mirror image of `countP_ite_sing`. -/
theorem countP_ite_sing' (p : Chunk → Bool) (c : Prop) [Decidable c]
    (x : Chunk) :
    List.countP p (if c then [] else [x]) =
      if c then 0 else (if p x then 1 else 0) := by
  split <;> simp [List.countP_cons]

/-- Coordinate lines contribute nothing to a count that rejects them. -/
theorem countP_coords (p : Chunk → Bool)
    (hp : ∀ x y, p (Chunk.coordLine x y) = false) (n : Nat)
    (pts : List (ℚ × ℚ)) :
    List.countP p ((List.range n).map fun i =>
      Chunk.coordLine (pts.getD i (0, 0)).1 (pts.getD i (0, 0)).2) = 0 := by
  rw [List.countP_eq_length_filter, filter_coords p hp n pts]
  rfl

/-- A conditional singleton is a sublist of the plain singleton. -/
theorem ite_sing_sublist (c : Prop) [Decidable c] (x : Chunk) :
    List.Sublist (if c then [x] else []) [x] := by
  split
  · exact List.Sublist.refl _
  · exact List.nil_sublist _

/-- Claim C6: the axis option lines come out in the fixed order x-range,
y-range, grid, width, height, x-label, y-label, legend-position
(strictly increasing `optSlot`), and each specific option line is
emitted exactly once when its field is set (ranges: a nonzero bound;
grid: the flag equals 1; width/height: nonzero; strings: nonempty) and
not at all otherwise. -/
theorem claim_C6 (f : Plt) :
    List.Pairwise (fun a b => optSlot a < optSlot b) (axisOptions f) ∧
    (axisOptions f).countP
        (fun ch => decide (ch = Chunk.xrange f.xmin f.xmax)) =
      (if f.xmin ≠ 0 ∨ f.xmax ≠ 0 then 1 else 0) ∧
    (axisOptions f).countP (fun ch => decide (optSlot ch = 0)) =
      (if f.xmin ≠ 0 ∨ f.xmax ≠ 0 then 1 else 0) ∧
    (axisOptions f).countP
        (fun ch => decide (ch = Chunk.yrange f.ymin f.ymax)) =
      (if f.ymin ≠ 0 ∨ f.ymax ≠ 0 then 1 else 0) ∧
    (axisOptions f).countP (fun ch => decide (optSlot ch = 1)) =
      (if f.ymin ≠ 0 ∨ f.ymax ≠ 0 then 1 else 0) ∧
    (axisOptions f).countP (fun ch => decide (ch = Chunk.gridMajor)) =
      (if f.grid = 1 then 1 else 0) ∧
    (axisOptions f).countP
        (fun ch => decide (ch = Chunk.widthOpt f.width)) =
      (if f.width ≠ 0 then 1 else 0) ∧
    (axisOptions f).countP (fun ch => decide (optSlot ch = 3)) =
      (if f.width ≠ 0 then 1 else 0) ∧
    (axisOptions f).countP
        (fun ch => decide (ch = Chunk.heightOpt f.height)) =
      (if f.height ≠ 0 then 1 else 0) ∧
    (axisOptions f).countP (fun ch => decide (optSlot ch = 4)) =
      (if f.height ≠ 0 then 1 else 0) ∧
    (axisOptions f).countP
        (fun ch => decide (ch = Chunk.xlabelOpt f.xlabel)) =
      (if f.xlabel ≠ "" then 1 else 0) ∧
    (axisOptions f).countP (fun ch => decide (optSlot ch = 5)) =
      (if f.xlabel ≠ "" then 1 else 0) ∧
    (axisOptions f).countP
        (fun ch => decide (ch = Chunk.ylabelOpt f.ylabel)) =
      (if f.ylabel ≠ "" then 1 else 0) ∧
    (axisOptions f).countP (fun ch => decide (optSlot ch = 6)) =
      (if f.ylabel ≠ "" then 1 else 0) ∧
    (axisOptions f).countP
        (fun ch => decide (ch = Chunk.legendPosOpt f.legend_position)) =
      (if f.legend_position ≠ "" then 1 else 0) ∧
    (axisOptions f).countP (fun ch => decide (optSlot ch = 7)) =
      (if f.legend_position ≠ "" then 1 else 0) := by
  constructor
  · have hsub : List.Sublist (axisOptions f)
        ([Chunk.xrange f.xmin f.xmax] ++ [Chunk.yrange f.ymin f.ymax] ++
         [Chunk.gridMajor] ++ [Chunk.widthOpt f.width] ++
         [Chunk.heightOpt f.height] ++ [Chunk.xlabelOpt f.xlabel] ++
         [Chunk.ylabelOpt f.ylabel] ++
         [Chunk.legendPosOpt f.legend_position]) := by
      unfold axisOptions
      refine List.Sublist.append ?_ (ite_sing_sublist _ _)
      refine List.Sublist.append ?_ (ite_sing_sublist _ _)
      refine List.Sublist.append ?_ (ite_sing_sublist _ _)
      refine List.Sublist.append ?_ (ite_sing_sublist _ _)
      refine List.Sublist.append ?_ (ite_sing_sublist _ _)
      refine List.Sublist.append ?_ (ite_sing_sublist _ _)
      refine List.Sublist.append ?_ (ite_sing_sublist _ _)
      exact ite_sing_sublist _ _
    have hfull : List.Pairwise (fun a b => optSlot a < optSlot b)
        [Chunk.xrange f.xmin f.xmax, Chunk.yrange f.ymin f.ymax,
         Chunk.gridMajor, Chunk.widthOpt f.width, Chunk.heightOpt f.height,
         Chunk.xlabelOpt f.xlabel, Chunk.ylabelOpt f.ylabel,
         Chunk.legendPosOpt f.legend_position] := by
      simp [List.pairwise_cons, optSlot]
    exact hfull.sublist hsub
  · repeat' apply And.intro
    all_goals
      simp [axisOptions, List.countP_append, countP_ite_sing,
        countP_ite_sing', optSlot]

/-- Claim C7: a Line series with empty color renders no `color=` line; a
series with empty legend renders no legend-entry line; a Stem entry
always opens with the header that interpolates the color positionally,
even when the color is empty; and a nonempty legend yields exactly one
legend-entry line, placed immediately after the `};` that closes the
coordinate block (for both kinds). -/
theorem claim_C7 (d : PlotData) :
    (d.color = "" → (add_plot d).countP isColorLine = 0) ∧
    (d.legend = "" → (add_plot d).countP isLegendLine = 0 ∧
                     (add_stem d).countP isLegendLine = 0) ∧
    (add_stem d).head? = some (Chunk.stemHeader d.color) ∧
    (d.legend ≠ "" →
      (∃ pre, add_plot d =
        pre ++ [Chunk.closeCoords, Chunk.legendEntry d.legend]) ∧
      (∃ pre, add_stem d =
        pre ++ [Chunk.closeCoords, Chunk.legendEntry d.legend]) ∧
      (add_plot d).countP isLegendLine = 1 ∧
      (add_stem d).countP isLegendLine = 1) := by
  refine ⟨?_, ?_, ?_, ?_⟩
  · intro hc
    simp [add_plot, List.countP_append, countP_ite_sing, countP_ite_sing',
      countP_coords isColorLine (fun _ _ => rfl), isColorLine, hc]
  · intro hl
    constructor
    · simp [add_plot, List.countP_append, countP_ite_sing, countP_ite_sing',
        countP_coords isLegendLine (fun _ _ => rfl), isLegendLine, hl]
    · simp [add_stem, List.countP_append, countP_ite_sing, countP_ite_sing',
        countP_coords isLegendLine (fun _ _ => rfl), isLegendLine, hl]
  · simp [add_stem]
  · intro hl
    refine ⟨⟨[Chunk.addplotHeader] ++
        (if d.color ≠ "" then [Chunk.colorLine d.color] else []) ++
        [Chunk.lineWidthCoords] ++
        ((List.range d.length).map fun i =>
          Chunk.coordLine (d.points.getD i (0, 0)).1
            (d.points.getD i (0, 0)).2), ?_⟩,
      ⟨[Chunk.stemHeader d.color] ++
        ((List.range d.length).map fun i =>
          Chunk.coordLine (d.points.getD i (0, 0)).1
            (d.points.getD i (0, 0)).2), ?_⟩, ?_, ?_⟩
    · simp [add_plot, hl, List.append_assoc]
    · simp [add_stem, hl, List.append_assoc]
    · simp [add_plot, List.countP_append, countP_ite_sing, countP_ite_sing',
        countP_coords isLegendLine (fun _ _ => rfl), isLegendLine, hl]
    · simp [add_stem, List.countP_append, countP_ite_sing, countP_ite_sing',
        countP_coords isLegendLine (fun _ _ => rfl), isLegendLine, hl]

/-- Witness for C7 at concrete series: a Line series with empty color
and legend has no color line and no legend line; a Stem series opens
with the (empty-)color header; a Line series with legend `"L"` has
exactly one legend line. -/
theorem claim_C7_witness :
    (add_plot { length := 1, type := "plot", color := "", legend := "",
                points := [(1, 2)] }).countP isColorLine = 0 ∧
    (add_plot { length := 1, type := "plot", color := "", legend := "",
                points := [(1, 2)] }).countP isLegendLine = 0 ∧
    (add_stem { length := 1, type := "stem", color := "", legend := "L",
                points := [(1, 2)] }).head? =
      some (Chunk.stemHeader "") ∧
    (add_plot { length := 1, type := "stem", color := "", legend := "L",
                points := [(1, 2)] }).countP isLegendLine = 1 := by
  have h1 := claim_C7
    { length := 1
      type := "plot"
      color := ""
      legend := ""
      points := [(1, 2)] }
  have h2 := claim_C7
    { length := 1
      type := "stem"
      color := ""
      legend := "L"
      points := [(1, 2)] }
  exact ⟨h1.1 rfl, (h1.2.1 rfl).1, h2.2.2.1, (h2.2.2.2 (by decide)).2.2.1⟩
